import Mathlib

/-!
# Verification of the news-filter app's data model and ingestion pipeline

Shallow embedding of `src/app.py` (a Streamlit fake-news-detector).
The embedded parts are:

* the credential store backed by a MongoDB collection keyed by username
  (`hash_password`, `verify_password`, registration and login from
  `display_modern_auth`, `add_to_history`, and the history read in
  `display_modern_history`);
* the article extractor `get_article_text` (HTTP fetch, BeautifulSoup
  script/style removal, text cleanup, 200-character threshold);
* the streaming LLM wrapper `generate_ai_response`.

External effects (MongoDB, `requests`, the HF streaming endpoint,
`datetime.now()`, SHA-256) are modelled explicitly: the store is an
explicit document list, network/stream outcomes are input data, the clock
is a parameter, and the hash is an abstract `String → String` parameter
(the code only ever compares hash outputs for equality).
-/

set_option autoImplicit false

namespace NewsFilter

/-! ## Credential store data model

A MongoDB document of shape `{_id, password, history}`, as inserted by the
register branch of `display_modern_auth`.  The collection is a list of
documents; `_id` is the username and is unique in every reachable state,
but the operations below are faithful to Mongo's behaviour on any list
(`find_one` / `update_one` act on the first match).
-/

/-- One history entry, as built by `add_to_history` in `src/app.py`:
`{"date": ..., "type": ..., "input": ..., "response": ...}`. -/
structure HistoryEntry where
  date : String
  type : String
  input : String
  response : String
deriving DecidableEq, Repr

/-- One user document: `{"_id": username, "password": digest, "history": [...]}`. -/
structure UserDoc where
  _id : String
  password : String
  history : List HistoryEntry
deriving DecidableEq, Repr

/-- The users collection: the documents currently stored. -/
abbrev Store : Type := List UserDoc

/-- `users_collection.find_one({"_id": username})`: first document whose
`_id` equals the username, if any. -/
def find_one : Store → String → Option UserDoc
  | [], _ => none
  | d :: ds, u => if d._id = u then some d else find_one ds u

/-- `users_collection.insert_one(doc)`. -/
def insert_one (s : Store) (d : UserDoc) : Store := s ++ [d]

/-! ## Password hashing (`hash_password`, `verify_password`)

`hashlib.sha256(password.encode()).hexdigest()` is an external pure
function; it enters the code only through `hash_password`, and the code
never inspects the digest beyond string equality, so it is abstracted as a
parameter `sha256_hexdigest : String → String`. -/

/-- `hash_password(password)`: hashes a password for storing. -/
def hash_password (sha256_hexdigest : String → String) (password : String) : String :=
  sha256_hexdigest password

/-- `verify_password(stored_password, provided_password)`: verifies a
provided password against a stored hash. -/
def verify_password (sha256_hexdigest : String → String)
    (stored_password provided_password : String) : Bool :=
  stored_password = hash_password sha256_hexdigest provided_password

/-! ## Registration and login (`display_modern_auth`) -/

/-- Outcome of the register branch of `display_modern_auth`
(lines 349–357): `alreadyExists` corresponds to the
`st.error("Username already exists")` path, `created` to a successful
`insert_one` followed by the success message. -/
inductive RegisterOutcome where
  | created
  | alreadyExists
deriving DecidableEq, Repr

/-- The register branch of `display_modern_auth`: if
`users_collection.find_one({"_id": username})` finds a document, report
the duplicate-username error and leave the store alone; otherwise insert
`{"_id": username, "password": hash_password(password), "history": []}`. -/
def register (sha256_hexdigest : String → String) (s : Store)
    (username password : String) : RegisterOutcome × Store :=
  match find_one s username with
  | some _ => (RegisterOutcome.alreadyExists, s)
  | none =>
      (RegisterOutcome.created,
       insert_one s ⟨username, hash_password sha256_hexdigest password, []⟩)

/-- Outcome of the login branch of `display_modern_auth`: `success`
corresponds to setting `logged_in`; `failure msg` to `st.error(msg)`. -/
inductive AuthResult where
  | success
  | failure (message : String)
deriving DecidableEq, Repr

/-- The generic login-failure message of `display_modern_auth`
(line 337). -/
def invalid_credentials_msg : String := "Invalid username or password"

/-- The login branch of `display_modern_auth` (lines 331–337):
`user_data = find_one(...)`; succeed iff `user_data` is truthy (a found
document is a non-empty dict, hence truthy) and
`verify_password(user_data["password"], password)`; otherwise show the
one generic error message. -/
def authenticate (sha256_hexdigest : String → String) (s : Store)
    (username password : String) : AuthResult :=
  match find_one s username with
  | some user_data =>
      if verify_password sha256_hexdigest user_data.password password then
        AuthResult.success
      else
        AuthResult.failure invalid_credentials_msg
  | none => AuthResult.failure invalid_credentials_msg

/-! ## History (`add_to_history`, `display_modern_history`) -/

/-- `update_one({"_id": username}, {"$push": {"history": {"$each": [e],
"$position": 0}}})`: prepend `e` to the history of the first matching
document; if no document matches, `update_one` matches nothing and the
store is unchanged. -/
def update_one_push_history : Store → String → HistoryEntry → Store
  | [], _, _ => []
  | d :: ds, u, e =>
      if d._id = u then { d with history := e :: d.history } :: ds
      else d :: update_one_push_history ds u e

/-- `add_to_history(username, interaction_type, user_input, ai_response)`:
builds the entry (the `datetime.now()` timestamp is the parameter `now`)
and pushes it at position 0 of the user's history. -/
def add_to_history (now : String) (s : Store)
    (username interaction_type user_input ai_response : String) : Store :=
  update_one_push_history s username
    ⟨now, interaction_type, user_input, ai_response⟩

/-- The history read in `display_modern_history` (lines 508–509):
`user_data.get("history", []) if user_data else []`. -/
def get_history (s : Store) (username : String) : List HistoryEntry :=
  match find_one s username with
  | some user_data => user_data.history
  | none => []

/-- Sequence of `add_to_history` calls, one per entry, oldest call
first; each tuple supplies the clock reading and the three arguments of
one call. -/
def add_all_to_history (s : Store) (username : String)
    (entries : List HistoryEntry) : Store :=
  entries.foldl
    (fun st e => add_to_history e.date st username e.type e.input e.response) s

/-! ## Store lemmas -/

theorem find_one_insert_self (s : Store) (u : String) (d : UserDoc)
    (h : find_one s u = none) (hd : d._id = u) :
    find_one (insert_one s d) u = some d := by
  induction s with
  | nil => simp [find_one, insert_one, hd]
  | cons x xs ih =>
      simp only [find_one, insert_one, List.cons_append] at h ⊢
      by_cases hx : x._id = u
      · simp [hx] at h
      · simp only [hx, if_false] at h ⊢
        exact ih h

theorem update_push_no_match (s : Store) (u : String) (e : HistoryEntry)
    (h : find_one s u = none) : update_one_push_history s u e = s := by
  induction s with
  | nil => rfl
  | cons x xs ih =>
      simp only [find_one] at h
      by_cases hx : x._id = u
      · simp [hx] at h
      · simp only [hx, if_false] at h
        simp [update_one_push_history, hx, ih h]

theorem find_one_update_push (s : Store) (u : String) (e : HistoryEntry)
    (d : UserDoc) (h : find_one s u = some d) :
    find_one (update_one_push_history s u e) u =
      some { d with history := e :: d.history } := by
  induction s with
  | nil => simp [find_one] at h
  | cons x xs ih =>
      by_cases hx : x._id = u
      · simp only [find_one, if_pos hx, Option.some.injEq] at h
        subst h
        simp [update_one_push_history, find_one, hx]
      · simp only [find_one, if_neg hx] at h
        simp [update_one_push_history, find_one, hx, ih h]

theorem get_history_add_all (s : Store) (u : String) (d : UserDoc)
    (es : List HistoryEntry) (h : find_one s u = some d) :
    get_history (add_all_to_history s u es) u = es.reverse ++ d.history := by
  induction es generalizing s d with
  | nil => simp [add_all_to_history, get_history, h]
  | cons e rest ih =>
      have step :
          find_one (add_to_history e.date s u e.type e.input e.response) u =
            some { d with history := e :: d.history } := by
        simpa [add_to_history] using find_one_update_push s u e d h
      have := ih (add_to_history e.date s u e.type e.input e.response)
        { d with history := e :: d.history } step
      simpa [add_all_to_history, List.foldl_cons] using this

/-! ## Article extractor (`get_article_text`)

The HTML document handed to BeautifulSoup is a tree of element and text
nodes; `soup(["script", "style"])` followed by `.decompose()` removes
every `script`/`style` subtree, `get_text()` concatenates the remaining
text nodes in document order, and the generator pipeline cleans the
result.  A document is the list of top-level nodes of the parsed page. -/

/-- A parsed HTML node: a text node or an element with a tag and child
nodes. -/
inductive Html where
  | text (s : String)
  | elem (tag : String) (children : List Html)

/-- Whether a node is one of the tags removed by
`soup(["script", "style"])`. -/
def is_script_or_style : Html → Bool
  | Html.text _ => false
  | Html.elem tag _ => tag = "script" || tag = "style"

mutual

/-- Effect of `script_or_style.decompose()` for every matching tag:
remove all `script`/`style` subtrees. -/
def decompose_scripts : Html → Html
  | Html.text s => Html.text s
  | Html.elem tag cs => Html.elem tag (decompose_scripts_list cs)

/-- `decompose_scripts` over a child list: matching children are dropped
wholesale, the rest are cleaned recursively. -/
def decompose_scripts_list : List Html → List Html
  | [] => []
  | c :: cs =>
      if is_script_or_style c then decompose_scripts_list cs
      else decompose_scripts c :: decompose_scripts_list cs

end

mutual

/-- `soup.get_text()`: concatenation of all text nodes in document
order. -/
def get_text : Html → String
  | Html.text s => s
  | Html.elem _ cs => get_text_list cs

/-- `get_text` over a child list. -/
def get_text_list : List Html → String
  | [] => ""
  | c :: cs => get_text c ++ get_text_list cs

end

mutual

/-- Specification-level visible text: the text of all nodes that do not
sit under a `script` or `style` element, read off directly without a
rewriting pass.  Used to state that extraction depends only on visible
text. -/
def visible_text : Html → String
  | Html.text s => s
  | Html.elem _ cs => visible_text_list cs

/-- `visible_text` over a child list: `script`/`style` children
contribute nothing. -/
def visible_text_list : List Html → String
  | [] => ""
  | c :: cs =>
      (if is_script_or_style c then "" else visible_text c) ++
        visible_text_list cs

end

/-- Characters on which Python's `str.splitlines()` breaks lines. -/
def is_line_break (c : Char) : Bool :=
  c = '\n' || c = '\r' || c = '\x0b' || c = '\x0c' ||
  c = '\x1c' || c = '\x1d' || c = '\x1e' || c = '\u0085' ||
  c = '\u2028' || c = '\u2029'

/-- Characters stripped by Python's `str.strip()` (ASCII whitespace;
the pages at issue are ASCII-spaced, wider Unicode spaces behave the
same way). -/
def is_py_space (c : Char) : Bool :=
  c = ' ' || c = '\t' || c = '\n' || c = '\r' || c = '\x0b' || c = '\x0c'

/-- Python `s.strip()` on a character list: drop leading and trailing
whitespace. -/
def py_strip_chars (l : List Char) : List Char :=
  ((l.dropWhile is_py_space).reverse.dropWhile is_py_space).reverse

/-- Python `s.strip()`: drop leading and trailing whitespace. -/
def py_strip (s : String) : String :=
  String.mk (py_strip_chars s.data)

/-- Python `str.splitlines()`: cut the character stream at every
line-break character.  (Python emits no piece after a trailing break and
none at all for `""`; those pieces are empty, and every empty chunk is
dropped by the filter at the end of the pipeline, so keeping them does
not change `clean_text`.) -/
def splitlines_chars : List Char → List (List Char)
  | [] => [[]]
  | c :: cs =>
      match splitlines_chars cs with
      | [] => [[]]
      | l :: ls => if is_line_break c then [] :: l :: ls else (c :: l) :: ls

/-- Python `line.split("  ")`: cut at each non-overlapping occurrence of
two consecutive spaces, scanning left to right. -/
def split_double_space : List Char → List (List Char)
  | [] => [[]]
  | [c] => [[c]]
  | c1 :: c2 :: cs =>
      if c1 = ' ' ∧ c2 = ' ' then [] :: split_double_space cs
      else
        match split_double_space (c2 :: cs) with
        | [] => [[c1]]
        | l :: ls => (c1 :: l) :: ls

/-- Python `'\n'.join(...)` over character lists. -/
def join_newline : List (List Char) → List Char
  | [] => []
  | [l] => l
  | l :: l2 :: ls => l ++ '\n' :: join_newline (l2 :: ls)

/-- The cleanup pipeline of `get_article_text` (lines 258–260):
`lines = (line.strip() for line in text.splitlines())`;
`chunks = (phrase.strip() for line in lines for phrase in line.split("  "))`;
`'\n'.join(chunk for chunk in chunks if chunk)`. -/
def clean_text (text : String) : String :=
  let lines := (splitlines_chars text.data).map py_strip_chars
  let chunks := ((lines.map split_double_space).flatten).map py_strip_chars
  String.mk (join_newline (chunks.filter (fun chunk => chunk ≠ [])))

/-- The text `get_article_text` computes from a parsed document before
the length check: remove script/style subtrees, take the remaining text,
clean it up. -/
def extracted_text (doc : List Html) : String :=
  clean_text (get_text_list (decompose_scripts_list doc))

/-- Outcome of `requests.get` + `response.raise_for_status()` +
`BeautifulSoup(...)` as seen by `get_article_text`:
either `requests.get` raised a `RequestException`, or a response with a
status code arrived and its body either parsed to a document or raised
some exception (`Except.error` carries that exception's message). -/
inductive FetchOutcome where
  | request_exception (reason : String)
  | response (status : Nat) (body : Except String (List Html))

/-- `response.raise_for_status()` raises `HTTPError` (a
`RequestException`) exactly for 4xx and 5xx status codes. -/
def raises_for_status (status : Nat) : Bool :=
  decide (400 ≤ status) && decide (status < 600)

/-- The message of the `HTTPError` raised by `raise_for_status`
(abstracting the URL part of requests' `"<status> Client Error: ... "`
text; only the fact that it reports the status matters here). -/
def http_error_reason (status : Nat) : String :=
  toString status ++ " Error"

/-- The `InsufficientContent` message (line 263). -/
def insufficient_content_msg : String :=
  "Could not extract enough meaningful text from the URL. The site might be heavily reliant on JavaScript or block scraping."

/-- The `FetchError` message (line 267), wrapping the underlying
exception text. -/
def fetch_error_msg (reason : String) : String :=
  "Failed to fetch the article. Error: " ++ reason

/-- The `ParseError` message (line 269), wrapping the underlying
exception text. -/
def parse_error_msg (reason : String) : String :=
  "An error occurred while parsing the article: " ++ reason

/-- `get_article_text(url)` over the outcome of its external calls.
Mirrors the Python control flow: a `RequestException` from `requests.get`
or from `raise_for_status` hits the first `except` and yields the
`FetchError` pair; any other exception while parsing hits the second
`except` and yields the `ParseError` pair; otherwise the cleaned text is
returned unless it is shorter than 200 characters.  The Python function
returns a `(text, error)` pair with exactly one component set. -/
def get_article_text (r : FetchOutcome) : Option String × Option String :=
  match r with
  | FetchOutcome.request_exception reason =>
      (none, some (fetch_error_msg reason))
  | FetchOutcome.response status body =>
      if raises_for_status status then
        (none, some (fetch_error_msg (http_error_reason status)))
      else
        match body with
        | Except.error reason => (none, some (parse_error_msg reason))
        | Except.ok doc =>
            let text := extracted_text doc
            if text.length < 200 then (none, some insufficient_content_msg)
            else (some text, none)

/-! ## Extractor lemmas -/

mutual

theorem get_text_decompose : (h : Html) →
    get_text (decompose_scripts h) = visible_text h
  | Html.text _ => rfl
  | Html.elem _ cs => by
      simp only [decompose_scripts, get_text, visible_text]
      exact get_text_list_decompose cs

theorem get_text_list_decompose : (cs : List Html) →
    get_text_list (decompose_scripts_list cs) = visible_text_list cs
  | [] => rfl
  | c :: cs => by
      by_cases hc : is_script_or_style c
      · simp [decompose_scripts_list, visible_text_list, hc,
              get_text_list_decompose cs]
      · simp [decompose_scripts_list, get_text_list, visible_text_list, hc,
              get_text_decompose c, get_text_list_decompose cs]

end

/-! ## Streaming analysis wrapper (`generate_ai_response`)

The streaming `chat_completion` call yields chunks whose shape is
`chunk.choices[0].delta.content`; `content` may be absent (`None`) or an
empty string, both falsy in the guard
`if chunk.choices and chunk.choices[0].delta.content`.  The whole
iteration may instead raise, possibly after some chunks were already
consumed; the `except` clause then discards the partial text. -/

/-- `delta` of a streamed choice: its `content` is a string or `None`. -/
structure Delta where
  content : Option String
deriving DecidableEq, Repr

/-- One element of `chunk.choices`. -/
structure Choice where
  delta : Delta
deriving DecidableEq, Repr

/-- One streamed chunk. -/
structure Chunk where
  choices : List Choice
deriving DecidableEq, Repr

/-- Outcome of iterating `client.chat_completion(..., stream=True)`:
either the stream completes with the listed chunks, or an exception is
raised after some prefix of chunks was already folded in. -/
inductive StreamOutcome where
  | success (chunks : List Chunk)
  | exception (processed : List Chunk) (reason : String)

/-- The contribution of one chunk to `response_text`: the loop body adds
`chunk.choices[0].delta.content` exactly when `chunk.choices` is
non-empty and the content is truthy (not `None`, not `""`). -/
def chunk_content (c : Chunk) : Option String :=
  match c.choices with
  | [] => none
  | choice :: _ =>
      match choice.delta.content with
      | none => none
      | some s => if s = "" then none else some s

/-- The `response_text` accumulation loop (lines 231–237). -/
def accumulate_response : List Chunk → String
  | [] => ""
  | c :: cs =>
      (match chunk_content c with
       | some s => s
       | none => "") ++ accumulate_response cs

/-- The fixed fallback apology returned from the `except` clause
(line 240). -/
def fallback_apology : String :=
  "Sorry, I couldn't generate a response at this moment. Please try again later."

/-- `generate_ai_response(system_prompt, user_prompt)` over the stream
outcome: any exception yields the fixed apology (partial accumulation
discarded); otherwise the accumulated text is returned `.strip()`-ped. -/
def generate_ai_response (r : StreamOutcome) : String :=
  match r with
  | StreamOutcome.exception _ _ => fallback_apology
  | StreamOutcome.success chunks => py_strip (accumulate_response chunks)

/-- Concatenation of a list of strings in order. -/
def concat_all : List String → String
  | [] => ""
  | s :: ss => s ++ concat_all ss

theorem accumulate_eq_concat_filterMap (cs : List Chunk) :
    accumulate_response cs =
      concat_all (cs.filterMap chunk_content) := by
  induction cs with
  | nil => rfl
  | cons c rest ih =>
      cases hc : chunk_content c <;>
        simp [accumulate_response, List.filterMap_cons, hc, ih, concat_all]

/-! ## Claim theorems -/

/-- C1: if a user record for `u` already exists, a second registration of
`u` always fails with the duplicate-username error (`AlreadyExists`,
surfaced as "Username already exists") and leaves the whole store — in
particular the existing record's digest and history — unchanged. -/
theorem c1_duplicate_registration_fails (sha256_hexdigest : String → String)
    (s : Store) (u p : String) (d : UserDoc) (h : find_one s u = some d) :
    register sha256_hexdigest s u p = (RegisterOutcome.alreadyExists, s) := by
  simp [register, h]

theorem c1_duplicate_registration_fails_witness :
    find_one [UserDoc.mk "alice" "d1" []] "alice" = some (UserDoc.mk "alice" "d1" []) ∧
    register (fun x => x) [UserDoc.mk "alice" "d1" []] "alice" "pw2" =
      (RegisterOutcome.alreadyExists, [UserDoc.mk "alice" "d1" []]) :=
  ⟨by decide,
   c1_duplicate_registration_fails (fun x => x) [UserDoc.mk "alice" "d1" []]
     "alice" "pw2" (UserDoc.mk "alice" "d1" []) (by decide)⟩

/-- C2: for a registered username `u`, `authenticate u p` succeeds iff the
hash of `p` equals the stored digest; in particular registering `u` with
`p` and then authenticating with `p` succeeds, while authenticating with
any `q` whose hash differs from `p`'s fails with the
`InvalidCredentials` message. -/
theorem c2_authenticate_iff_hash_matches (sha256_hexdigest : String → String)
    (s s₀ : Store) (u p q : String) (d : UserDoc)
    (h : find_one s u = some d) (h₀ : find_one s₀ u = none)
    (hq : hash_password sha256_hexdigest q ≠ hash_password sha256_hexdigest p) :
    (authenticate sha256_hexdigest s u p = AuthResult.success ↔
      d.password = hash_password sha256_hexdigest p)
    ∧ authenticate sha256_hexdigest (register sha256_hexdigest s₀ u p).2 u p =
        AuthResult.success
    ∧ authenticate sha256_hexdigest (register sha256_hexdigest s₀ u p).2 u q =
        AuthResult.failure invalid_credentials_msg := by
  have hreg : (register sha256_hexdigest s₀ u p).2 =
      insert_one s₀ ⟨u, hash_password sha256_hexdigest p, []⟩ := by
    simp [register, h₀]
  have hfind :
      find_one (insert_one s₀ ⟨u, hash_password sha256_hexdigest p, []⟩) u =
        some ⟨u, hash_password sha256_hexdigest p, []⟩ :=
    find_one_insert_self s₀ u _ h₀ rfl
  refine ⟨?_, ?_, ?_⟩
  · by_cases hd : d.password = hash_password sha256_hexdigest p
    · simp [authenticate, h, verify_password, hd]
    · have hd' : ¬ d.password = sha256_hexdigest p := by
        simpa [hash_password] using hd
      have hv : verify_password sha256_hexdigest d.password p = false := by
        simp [verify_password, hash_password, hd']
      simp [authenticate, h, hv, hash_password]
      exact hd'
  · simp [hreg, authenticate, hfind, verify_password]
  · have hv : verify_password sha256_hexdigest
        (hash_password sha256_hexdigest p) q = false := by
      simp [verify_password, hash_password]
      intro he
      exact hq he.symm
    simp [hreg, authenticate, hfind, hv]

theorem c2_authenticate_iff_hash_matches_witness :
    find_one [UserDoc.mk "u" "a" []] "u" = some (UserDoc.mk "u" "a" []) ∧
    find_one [] "u" = none ∧
    ("b" : String) ≠ "a" ∧
    ((authenticate (fun x => x) [UserDoc.mk "u" "a" []] "u" "a" =
        AuthResult.success ↔ ("a" : String) = "a")
      ∧ authenticate (fun x => x) (register (fun x => x) [] "u" "a").2 "u" "a" =
          AuthResult.success
      ∧ authenticate (fun x => x) (register (fun x => x) [] "u" "a").2 "u" "b" =
          AuthResult.failure invalid_credentials_msg) :=
  ⟨by decide, rfl, by decide,
   c2_authenticate_iff_hash_matches (fun x => x) [UserDoc.mk "u" "a" []] []
     "u" "a" "b" (UserDoc.mk "u" "a" []) (by decide) rfl (by decide)⟩

/-- C3: starting from a registered user whose history is empty, `N`
sequential `add_to_history` calls leave `get_history` equal to exactly
those `N` entries in reverse chronological call order (most recent
first), with length `N` — nothing edited or removed. -/
theorem c3_history_reverse_order (s : Store) (u : String) (d : UserDoc)
    (es : List HistoryEntry) (h : find_one s u = some d)
    (hd : d.history = []) :
    get_history (add_all_to_history s u es) u = es.reverse
    ∧ (get_history (add_all_to_history s u es) u).length = es.length := by
  have hmain := get_history_add_all s u d es h
  rw [hd, List.append_nil] at hmain
  exact ⟨hmain, by simp [hmain]⟩

theorem c3_history_reverse_order_witness :
    find_one [UserDoc.mk "bob" "h" []] "bob" = some (UserDoc.mk "bob" "h" []) ∧
    (UserDoc.mk "bob" "h" []).history = [] ∧
    get_history
        (add_all_to_history [UserDoc.mk "bob" "h" []] "bob"
          [HistoryEntry.mk "t1" "A" "i1" "r1",
           HistoryEntry.mk "t2" "B" "i2" "r2",
           HistoryEntry.mk "t3" "C" "i3" "r3"]) "bob" =
      [HistoryEntry.mk "t3" "C" "i3" "r3",
       HistoryEntry.mk "t2" "B" "i2" "r2",
       HistoryEntry.mk "t1" "A" "i1" "r1"] :=
  ⟨by decide, rfl,
   ((c3_history_reverse_order [UserDoc.mk "bob" "h" []] "bob"
      (UserDoc.mk "bob" "h" [])
      [HistoryEntry.mk "t1" "A" "i1" "r1",
       HistoryEntry.mk "t2" "B" "i2" "r2",
       HistoryEntry.mk "t3" "C" "i3" "r3"] (by decide) rfl).1).trans (by decide)⟩

/-- C4 counterexample: a 404 response whose body yields no visible text
at all (far below 200 characters) does **not** fail with the
`InsufficientContent` message — `raise_for_status()` runs first, so the
result is the `FetchError` message instead.  The claim's "regardless of
the HTTP status code" is therefore false. -/
theorem c4_counterexample_status_404 :
    (extracted_text []).length < 200 ∧
    get_article_text (FetchOutcome.response 404 (Except.ok [])) ≠
      (none, some insufficient_content_msg) ∧
    get_article_text (FetchOutcome.response 404 (Except.ok [])) =
      (none, some (fetch_error_msg (http_error_reason 404))) := by
  refine ⟨by decide, by decide, by decide⟩

/-- C4 (amended): for every response whose status code does not trigger
`raise_for_status` (i.e. outside 400–599) and whose body parses, if the
extracted visible text is shorter than 200 characters then
`get_article_text` fails with the `InsufficientContent` message; for
statuses in 400–599 it fails with `FetchError` instead, regardless of
the body. -/
theorem c4_insufficient_content_when_no_http_error (status bad_status : Nat)
    (doc : List Html) (body : Except String (List Html))
    (hs : raises_for_status status = false)
    (hraise : raises_for_status bad_status = true)
    (hlen : (extracted_text doc).length < 200) :
    get_article_text (FetchOutcome.response status (Except.ok doc)) =
      (none, some insufficient_content_msg)
    ∧ get_article_text (FetchOutcome.response bad_status body) =
        (none, some (fetch_error_msg (http_error_reason bad_status))) := by
  constructor
  · simp [get_article_text, hs, hlen]
  · simp [get_article_text, hraise]

theorem c4_insufficient_content_when_no_http_error_witness :
    raises_for_status 200 = false ∧
    raises_for_status 404 = true ∧
    (extracted_text [Html.text "too short"]).length < 200 ∧
    (get_article_text (FetchOutcome.response 200
        (Except.ok [Html.text "too short"])) =
      (none, some insufficient_content_msg)
    ∧ get_article_text (FetchOutcome.response 404 (Except.error "ignored")) =
        (none, some (fetch_error_msg (http_error_reason 404)))) :=
  ⟨rfl, rfl, by decide,
   c4_insufficient_content_when_no_http_error 200 404 [Html.text "too short"]
     (Except.error "ignored") rfl rfl (by decide)⟩

/-- Concrete page used to witness C5: `script` and `style` elements with
non-trivial contents next to more than 200 characters of visible text. -/
def c5_sample_page : List Html :=
  [Html.elem "html"
    [Html.elem "head"
      [Html.elem "style" [Html.text "body color red; nav display none"],
       Html.elem "script" [Html.text "var tracker = loadTracker(42);"]],
     Html.elem "body"
      [Html.elem "p"
        [Html.text "The committee released its annual report on Tuesday, describing in detail how regional newsrooms verified claims, traced photos to their original sources, and interviewed independent experts before publishing each correction."],
       Html.elem "script" [Html.text "analytics.send(pageview);"]]]]

/-- C5: for a parsed page whose cleaned visible text reaches 200
characters, extraction succeeds and returns exactly the cleaned visible
text: the pipeline first discards every `script`/`style` subtree, takes
the remaining text, and collapses it line-by-line — so the result equals
`clean_text` of the specification-level `visible_text`, which never reads
script or style contents. -/
theorem c5_extraction_roundtrip (doc : List Html)
    (h : 200 ≤ (extracted_text doc).length) :
    get_article_text (FetchOutcome.response 200 (Except.ok doc)) =
      (some (extracted_text doc), none)
    ∧ extracted_text doc = clean_text (visible_text_list doc) := by
  constructor
  · have hs : raises_for_status 200 = false := rfl
    have hlen : ¬ (extracted_text doc).length < 200 := Nat.not_lt.mpr h
    simp [get_article_text, hs, hlen]
  · unfold extracted_text
    rw [get_text_list_decompose]

set_option maxRecDepth 40000 in
theorem c5_extraction_roundtrip_witness :
    200 ≤ (extracted_text c5_sample_page).length ∧
    (get_article_text (FetchOutcome.response 200 (Except.ok c5_sample_page)) =
      (some (extracted_text c5_sample_page), none)
    ∧ extracted_text c5_sample_page = clean_text (visible_text_list c5_sample_page)) :=
  ⟨by decide, c5_extraction_roundtrip c5_sample_page (by decide)⟩

/-- C6: if the chat-completion call raises at any point — before or after
some chunks were consumed — `generate_ai_response` returns the fixed
fallback apology string instead of propagating the error; on success it
returns the accumulated streamed content (the concatenation, in stream
order, of every present non-empty fragment) trimmed of leading and
trailing whitespace. -/
theorem c6_degrades_to_apology (processed : List Chunk) (reason : String)
    (chunks : List Chunk) :
    generate_ai_response (StreamOutcome.exception processed reason) =
      "Sorry, I couldn't generate a response at this moment. Please try again later."
    ∧ generate_ai_response (StreamOutcome.success chunks) =
        py_strip (concat_all (chunks.filterMap chunk_content)) := by
  exact ⟨rfl, by simp [generate_ai_response, accumulate_eq_concat_filterMap]⟩

theorem chunk_content_none_of_empty (c : Chunk)
    (h : c.choices = [] ∨
      ∃ choice rest, c.choices = choice :: rest ∧
        (choice.delta.content = none ∨ choice.delta.content = some "")) :
    chunk_content c = none := by
  rcases h with h0 | ⟨choice, rest, hc, hd | hd⟩
  · simp [chunk_content, h0]
  · simp [chunk_content, hc, hd]
  · simp [chunk_content, hc, hd]

/-- C10: a stream that completes with no fragment carrying content (every
chunk has an empty `choices` list or an absent/empty `delta.content`)
makes `generate_ai_response` return the empty string — not the fallback
apology — so an empty critique and a content-free stream are
indistinguishable to the caller. -/
theorem c10_contentfree_stream_yields_empty (chunks : List Chunk)
    (h : ∀ c ∈ chunks, c.choices = [] ∨
      ∃ choice rest, c.choices = choice :: rest ∧
        (choice.delta.content = none ∨ choice.delta.content = some "")) :
    generate_ai_response (StreamOutcome.success chunks) = ""
    ∧ generate_ai_response (StreamOutcome.success chunks) ≠ fallback_apology := by
  have hacc : accumulate_response chunks = "" := by
    induction chunks with
    | nil => rfl
    | cons c rest ih =>
        have hc : chunk_content c = none :=
          chunk_content_none_of_empty c (h c (List.mem_cons_self c rest))
        have hr := ih (fun x hx => h x (List.mem_cons_of_mem c hx))
        simp [accumulate_response, hc, hr]
  constructor
  · simp [generate_ai_response, hacc]
    rfl
  · simp [generate_ai_response, hacc]
    decide

theorem c10_contentfree_stream_yields_empty_witness :
    (generate_ai_response (StreamOutcome.success
        [Chunk.mk [], Chunk.mk [Choice.mk (Delta.mk none)],
         Chunk.mk [Choice.mk (Delta.mk (some ""))]]) = ""
      ∧ generate_ai_response (StreamOutcome.success
          [Chunk.mk [], Chunk.mk [Choice.mk (Delta.mk none)],
           Chunk.mk [Choice.mk (Delta.mk (some ""))]]) ≠ fallback_apology) :=
  c10_contentfree_stream_yields_empty
    [Chunk.mk [], Chunk.mk [Choice.mk (Delta.mk none)],
     Chunk.mk [Choice.mk (Delta.mk (some ""))]]
    (by
      intro c hc
      simp only [List.mem_cons, List.not_mem_nil, or_false] at hc
      rcases hc with h1 | h1 | h1 <;> subst h1
      · exact Or.inl rfl
      · exact Or.inr ⟨Choice.mk (Delta.mk none), [], rfl, Or.inl rfl⟩
      · exact Or.inr ⟨Choice.mk (Delta.mk (some "")), [], rfl, Or.inr rfl⟩)

/-- C7: `get_article_text` is total over its error cases — for every
outcome of its external calls it returns exactly one of a text result or
an error result; a `RequestException` is reported as the `FetchError`
message carrying the underlying reason, and an exception raised while
processing the body of a well-statused response is reported as the
`ParseError` message carrying the underlying reason. -/
theorem c7_extraction_total (r : FetchOutcome) (reason : String) :
    (((get_article_text r).1.isSome = true ∧ (get_article_text r).2 = none) ∨
      ((get_article_text r).1 = none ∧ (get_article_text r).2.isSome = true))
    ∧ get_article_text (FetchOutcome.request_exception reason) =
        (none, some (fetch_error_msg reason))
    ∧ get_article_text (FetchOutcome.response 200 (Except.error reason)) =
        (none, some (parse_error_msg reason)) := by
  refine ⟨?_, rfl, rfl⟩
  cases r with
  | request_exception e => simp [get_article_text]
  | response status body =>
      by_cases hs : raises_for_status status
      · simp [get_article_text, hs]
      · cases body with
        | error e => simp [get_article_text, hs]
        | ok doc =>
            by_cases hl : (extracted_text doc).length < 200
            · simp [get_article_text, hs, hl]
            · simp [get_article_text, hs, hl]

/-- C8: any two failing authentication runs — one where no record exists
for the username, one where a record exists but its digest does not match
the supplied password — produce the identical user-visible output, the
single generic `InvalidCredentials` message, so the two failure causes
are indistinguishable from the message alone. -/
theorem c8_failure_causes_indistinguishable (sha256_hexdigest : String → String)
    (s₁ s₂ : Store) (u₁ p₁ u₂ p₂ : String) (d : UserDoc)
    (h₁ : find_one s₁ u₁ = none)
    (h₂ : find_one s₂ u₂ = some d)
    (hd : d.password ≠ hash_password sha256_hexdigest p₂) :
    authenticate sha256_hexdigest s₁ u₁ p₁ =
      authenticate sha256_hexdigest s₂ u₂ p₂
    ∧ authenticate sha256_hexdigest s₁ u₁ p₁ =
        AuthResult.failure invalid_credentials_msg := by
  have hv : verify_password sha256_hexdigest d.password p₂ = false := by
    simp [verify_password, hash_password]
    simpa [hash_password] using hd
  simp [authenticate, h₁, h₂, hv]

theorem c8_failure_causes_indistinguishable_witness :
    find_one [] "ghost" = none ∧
    find_one [UserDoc.mk "bob" "pw" []] "bob" = some (UserDoc.mk "bob" "pw" []) ∧
    (UserDoc.mk "bob" "pw" []).password ≠ hash_password (fun x => x) "wrong" ∧
    (authenticate (fun x => x) [] "ghost" "anything" =
        authenticate (fun x => x) [UserDoc.mk "bob" "pw" []] "bob" "wrong"
      ∧ authenticate (fun x => x) [] "ghost" "anything" =
          AuthResult.failure invalid_credentials_msg) :=
  ⟨rfl, by decide, by decide,
   c8_failure_causes_indistinguishable (fun x => x) [] [UserDoc.mk "bob" "pw" []]
     "ghost" "anything" "bob" "wrong" (UserDoc.mk "bob" "pw" [])
     rfl (by decide) (by decide)⟩

/-- C9: `add_to_history` for a username with no record fails silently —
the operation reports no error (it is total and returns a store), creates
no record, and leaves the whole store unchanged; for an existing username
it always prepends the new entry, never deduplicating, so the history
grows by exactly one even when an identical entry is already present. -/
theorem c9_append_frame_conditions (s s' : Store)
    (u u' now ty inp resp now' ty' inp' resp' : String) (d : UserDoc)
    (h : find_one s u = none) (h' : find_one s' u' = some d) :
    add_to_history now s u ty inp resp = s
    ∧ get_history (add_to_history now' s' u' ty' inp' resp') u' =
        HistoryEntry.mk now' ty' inp' resp' :: d.history
    ∧ (get_history (add_to_history now' s' u' ty' inp' resp') u').length =
        d.history.length + 1 := by
  have hfind := find_one_update_push s' u' ⟨now', ty', inp', resp'⟩ d h'
  refine ⟨?_, ?_, ?_⟩
  · simpa [add_to_history] using update_push_no_match s u ⟨now, ty, inp, resp⟩ h
  · simp [add_to_history, get_history, hfind]
  · simp [add_to_history, get_history, hfind]

theorem c9_append_frame_conditions_witness :
    find_one [] "ghost" = none ∧
    find_one [UserDoc.mk "bob" "h" [HistoryEntry.mk "t" "A" "i" "r"]] "bob" =
      some (UserDoc.mk "bob" "h" [HistoryEntry.mk "t" "A" "i" "r"]) ∧
    (add_to_history "t" [] "ghost" "A" "i" "r" = [] ∧
      get_history
          (add_to_history "t" [UserDoc.mk "bob" "h" [HistoryEntry.mk "t" "A" "i" "r"]]
            "bob" "A" "i" "r") "bob" =
        [HistoryEntry.mk "t" "A" "i" "r", HistoryEntry.mk "t" "A" "i" "r"]) :=
  ⟨rfl, by decide,
   (c9_append_frame_conditions [] [UserDoc.mk "bob" "h" [HistoryEntry.mk "t" "A" "i" "r"]]
      "ghost" "bob" "t" "A" "i" "r" "t" "A" "i" "r"
      (UserDoc.mk "bob" "h" [HistoryEntry.mk "t" "A" "i" "r"]) rfl (by decide)).1,
   ((c9_append_frame_conditions [] [UserDoc.mk "bob" "h" [HistoryEntry.mk "t" "A" "i" "r"]]
      "ghost" "bob" "t" "A" "i" "r" "t" "A" "i" "r"
      (UserDoc.mk "bob" "h" [HistoryEntry.mk "t" "A" "i" "r"]) rfl (by decide)).2).1⟩

end NewsFilter
